import Mathlib

/-!
Shallow embedding of the agent process orchestrator of
`src/lib/agent-service.ts` (LiveKit voice-assistant repository), together
with theorems settling the specification claims about it.

Modelling conventions:
* The module-level `agentProcesses : Map<string, {...}>` is embedded as a
  function `Registry := String → Option AgentRecord`; `Map.set`,
  `Map.get` and `Map.delete` become `Registry.set`, application and
  `Registry.erase`.
* Timestamps (`Date.getTime()`) are integers counting milliseconds.
* External effects (the room-directory service, `spawn`, the process
  `error`/`exit` events, `Math.random()`) are inputs to the embedded
  functions, one per observable outcome the TypeScript code branches on.
-/

namespace AgentService

/-- The `status` field of an entry of `agentProcesses`:
`'starting' | 'running' | 'error'` in the TypeScript source. -/
inductive Status where
  | starting
  | running
  | error
deriving DecidableEq, Repr

/-- One entry of the `agentProcesses` map (src/lib/agent-service.ts lines
19-25): `{ process; status; error?; pid; startTime }`.  The `process`
handle itself carries no state the orchestrator reads, so it is not
modelled; `pid` is `agentProcess.pid || 0` at registration time. -/
structure AgentRecord where
  pid : Nat
  status : Status
  error : Option String
  startTime : Int
deriving DecidableEq, Repr

/-- The module-level `agentProcesses` map, keyed by room name. -/
def Registry := String → Option AgentRecord

/-- `agentProcesses.set(roomName, rec)`. -/
def Registry.set (reg : Registry) (roomName : String) (rec : AgentRecord) : Registry :=
  fun r => if r = roomName then some rec else reg r

/-- `agentProcesses.delete(roomName)`. -/
def Registry.erase (reg : Registry) (roomName : String) : Registry :=
  fun r => if r = roomName then none else reg r

/-- The empty map (state of `agentProcesses` at module load). -/
def emptyRegistry : Registry := fun _ => none

/-- `isAgentRunning` (lines 47-50):
`const agentProcess = agentProcesses.get(roomName);
 return !!agentProcess && agentProcess.status !== 'error';` -/
def isAgentRunning (reg : Registry) (roomName : String) : Bool :=
  match reg roomName with
  | none => false
  | some agentProcess => agentProcess.status != Status.error

/-- Return type of `getAgentStatus` (lines 55-61):
`{ running; pid?; status?; error?; uptime? }`. -/
structure AgentStatusResult where
  running : Bool
  pid : Option Nat
  status : Option Status
  error : Option String
  uptime : Option Int
deriving DecidableEq, Repr

/-- `Math.floor(x / 1000)` on an integer number `x` of milliseconds:
floor division by 1000 (`Int.fdiv` rounds toward negative infinity,
exactly as `Math.floor` of the real quotient does). -/
def msToSeconds (diff : Int) : Int := Int.fdiv diff 1000

/-- `getAgentStatus` (lines 55-77).  `now` is `new Date().getTime()` at
query time. -/
def getAgentStatus (reg : Registry) (roomName : String) (now : Int) : AgentStatusResult :=
  match reg roomName with
  | none => { running := false, pid := none, status := none, error := none, uptime := none }
  | some agentProcess =>
      { running := agentProcess.status != Status.error
        pid := some agentProcess.pid
        status := some agentProcess.status
        error := agentProcess.error
        uptime := some (msToSeconds (now - agentProcess.startTime)) }

/-- The `error` event handler registered in `startAgent` (lines 473-480):
`const agentInfo = agentProcesses.get(roomName);
 if (agentInfo) { agentInfo.status = 'error'; agentInfo.error = error.message; }` -/
def onSpawnErrorEvent (reg : Registry) (roomName : String) (message : String) : Registry :=
  match reg roomName with
  | none => reg
  | some agentInfo =>
      reg.set roomName { agentInfo with status := Status.error, error := some message }

/-- Effects of the `exit` handler besides the registry mutation: both log
streams are ended (`logStream.end(); errorLogStream.end();`). -/
structure ExitEffects where
  logStreamEnded : Bool
  errorLogStreamEnded : Bool
deriving DecidableEq, Repr

/-- The `exit` event handler registered in `startAgent` (lines 482-489):
`agentProcesses.delete(roomName)` and both log streams are closed.  The
handler receives the exit `code` and `signal` but uses neither except for
logging. -/
def onExitEvent (reg : Registry) (roomName : String)
    (code : Option Int) (signal : Option String) : Registry × ExitEffects :=
  let _ := code
  let _ := signal
  (reg.erase roomName, { logStreamEnded := true, errorLogStreamEnded := true })

/-- The status update after the one-second grace period (lines 496-502):
`const agentInfo = agentProcesses.get(roomName);
 if (agentInfo && agentInfo.status !== 'error') { agentInfo.status = 'running'; }` -/
def gracePeriodUpdate (reg : Registry) (roomName : String) : Registry :=
  match reg roomName with
  | none => reg
  | some agentInfo =>
      if agentInfo.status != Status.error then
        reg.set roomName { agentInfo with status := Status.running }
      else reg

/-- Return type of `startAgent` (lines 384-389):
`{ success; error?; pid?; alreadyRunning? }`.  The optional boolean
`alreadyRunning` is absent (falsy) except on the early-return path, so it
is modelled as a `Bool` defaulting to `false`. -/
structure StartResult where
  success : Bool
  error : Option String
  pid : Option Nat
  alreadyRunning : Bool
deriving DecidableEq, Repr

/-- Side effects of one `startAgent` call that the claims talk about:
whether a child process was spawned and whether a new script artifact was
written to the agent-instances directory. -/
structure StartEffects where
  spawned : Bool
  artifactWritten : Bool
deriving DecidableEq, Repr

/-- Outcomes of the external steps of one `startAgent` call, one field per
observable branch of the TypeScript code:
* `setupError`: `some msg` when one of the awaited/synchronous setup steps
  (`roomExists`, `createRoom`, script generation, log-stream creation,
  a synchronous `spawn` throw) raises, landing in the `catch` of lines
  508-514; `none` when setup completes and a child process is created.
* `spawnPid`: `agentProcess.pid`, which is `undefined` (`none`) when the
  spawn did not yield a pid; the registered record stores
  `agentProcess.pid || 0`.
* `now`: `new Date().getTime()` at registration time.
* `errorEventMsg`: `some msg` when the child fires its `error` event
  before the grace-period check runs, `none` otherwise.
* `exitBeforeGrace`: `true` when the child fires its `exit` event before
  the grace-period check runs. -/
structure StartEnv where
  setupError : Option String
  spawnPid : Option Nat
  now : Int
  errorEventMsg : Option String
  exitBeforeGrace : Bool
deriving DecidableEq, Repr

/-- `startAgent` (lines 384-515), for one call on registry `reg` with
external outcomes `env`.  Returns the result given to the caller, the
registry after the grace-period check, and the call's side effects.
Events that fire before the grace-period check are applied in source
order of their registration: the `error` event first, then `exit`. -/
def startAgent (reg : Registry) (roomName : String) (env : StartEnv) :
    StartResult × Registry × StartEffects :=
  if isAgentRunning reg roomName then
    ({ success := true, error := none,
       pid := (getAgentStatus reg roomName env.now).pid, alreadyRunning := true },
     reg, { spawned := false, artifactWritten := false })
  else
    match env.setupError with
    | some msg =>
        ({ success := false, error := some msg, pid := none, alreadyRunning := false },
         reg, { spawned := false, artifactWritten := false })
    | none =>
        let reg₁ := reg.set roomName
          { pid := env.spawnPid.getD 0, status := Status.starting,
            error := none, startTime := env.now }
        let reg₂ := match env.errorEventMsg with
          | some msg => onSpawnErrorEvent reg₁ roomName msg
          | none => reg₁
        let reg₃ := if env.exitBeforeGrace then
            (onExitEvent reg₂ roomName none none).1
          else reg₂
        let reg₄ := gracePeriodUpdate reg₃ roomName
        ({ success := true, error := none, pid := env.spawnPid, alreadyRunning := false },
         reg₄, { spawned := true, artifactWritten := true })

/-- Outcome of `agentInfo.process.kill('SIGTERM')` in `stopAgent`:
the call returns `true`, returns `false`, or throws. -/
inductive KillOutcome where
  | delivered
  | refused
  | threw (message : String)
deriving DecidableEq, Repr

/-- `stopAgent` (lines 520-538).  Returns the boolean result and the
registry after the call. -/
def stopAgent (reg : Registry) (roomName : String) (kill : KillOutcome) :
    Bool × Registry :=
  match reg roomName with
  | none => (false, reg)
  | some _ =>
      match kill with
      | KillOutcome.delivered => (true, reg.erase roomName)
      | KillOutcome.refused => (false, reg)
      | KillOutcome.threw _ => (false, reg)

/-- What the presence-check loop observes of one participant's `metadata`
string (lines 585-603): the string is empty (falsy, so `JSON.parse` is
skipped), or `JSON.parse` throws, or it parses to an object whose
`isAgent` field is truthy or falsy. -/
inductive Metadata where
  | empty
  | invalid
  | parsed (isAgent : Bool)
deriving DecidableEq, Repr

/-- One element of `client.listParticipants(roomName)`: the fields the
loop reads. -/
structure Participant where
  identity : String
  metadata : Metadata
deriving DecidableEq, Repr

/-- `a.startsWith(b)` on character lists: `b` is an initial segment of
`a`. -/
def charsStartWith : List Char → List Char → Bool
  | _, [] => true
  | [], _ :: _ => false
  | a :: as, b :: bs => a = b && charsStartWith as bs

/-- `a.includes(b)` on character lists: `b` occurs contiguously in `a`. -/
def charsContain : List Char → List Char → Bool
  | [], sub => charsStartWith [] sub
  | a :: as, sub => charsStartWith (a :: as) sub || charsContain as sub

/-- JavaScript `s.startsWith(pattern)`. -/
def strStartsWith (s pattern : String) : Bool :=
  charsStartWith s.data pattern.data

/-- JavaScript `s.includes(pattern)`. -/
def strIncludes (s pattern : String) : Bool :=
  charsContain s.data pattern.data

/-- The identity heuristics of lines 595-597:
`participant.identity.startsWith('agent-') ||
 participant.identity.includes('assistant') ||
 participant.identity.includes('bot')`. -/
def identityLooksLikeAgent (identity : String) : Bool :=
  strStartsWith identity "agent-" ||
  strIncludes identity "assistant" ||
  strIncludes identity "bot"

/-- The participant loop of `checkAgentInRoom` (lines 585-604).  A parse
failure (`Metadata.invalid`) hits the per-participant `catch`, whose
`continue` skips the identity check for that participant as well. -/
def scanParticipants : List Participant → Bool
  | [] => false
  | p :: ps =>
      match p.metadata with
      | Metadata.parsed true => true
      | Metadata.invalid => scanParticipants ps
      | Metadata.parsed false =>
          if identityLooksLikeAgent p.identity then true else scanParticipants ps
      | Metadata.empty =>
          if identityLooksLikeAgent p.identity then true else scanParticipants ps

/-- Outcome of the external participant query inside `checkAgentInRoom`:
* `ok ps`: `listParticipants` returned the list `ps`;
* `unavailable`: the client lacks a `listParticipants` method (lines
  576-579), and the function returns `false`;
* `failed rand`: `initLivekitClient` or `listParticipants` threw, landing
  in the inner `catch` (lines 605-609), where the code returns
  `Math.random() > 0.7`; `rand` is that draw, a rational in `[0, 1)`. -/
inductive QueryOutcome where
  | ok (ps : List Participant)
  | unavailable
  | failed (rand : ℚ)
deriving DecidableEq, Repr

/-- `checkAgentInRoom` (lines 561-616).  `roomKnown` is the result of
`await roomExists(roomName)`; when it is `false` the function returns
`false` immediately. -/
def checkAgentInRoom (roomKnown : Bool) (query : QueryOutcome) : Bool :=
  if !roomKnown then false
  else
    match query with
    | QueryOutcome.ok ps => scanParticipants ps
    | QueryOutcome.unavailable => false
    | QueryOutcome.failed rand => decide (rand > mkRat 7 10)

/-- The per-participant matching rule exactly as claim C8 words it, for
refinement comparison with the source's loop: a participant matches when
its metadata carries an explicit (truthy) agent flag, or — that flag
being absent — when its identity matches the naming heuristics. -/
def claimParticipantIsAgent (p : Participant) : Bool :=
  match p.metadata with
  | Metadata.parsed true => true
  | _ => identityLooksLikeAgent p.identity

/-- The scan as claim C8 words it: some participant matches
`claimParticipantIsAgent`. -/
def claimScanParticipants (ps : List Participant) : Bool :=
  ps.any claimParticipantIsAgent

/-- The matching rule the source's loop actually implements: as the claim
says, except that a participant whose metadata fails to parse is skipped
entirely — its identity is never inspected. -/
def participantIsAgent (p : Participant) : Bool :=
  match p.metadata with
  | Metadata.parsed true => true
  | Metadata.invalid => false
  | Metadata.parsed false => identityLooksLikeAgent p.identity
  | Metadata.empty => identityLooksLikeAgent p.identity

/-- Return type of `getFullAgentStatus` (lines 621-628). -/
structure FullAgentStatus where
  localProcessRunning : Bool
  agentInRoom : Bool
  pid : Option Nat
  status : Option Status
  error : Option String
  uptime : Option Int
deriving DecidableEq, Repr

/-- `getFullAgentStatus` (lines 621-640): merges `getAgentStatus` with
`checkAgentInRoom`. -/
def getFullAgentStatus (reg : Registry) (roomName : String) (now : Int)
    (roomKnown : Bool) (query : QueryOutcome) : FullAgentStatus :=
  let localStatus := getAgentStatus reg roomName now
  let agentInRoom := checkAgentInRoom roomKnown query
  { localProcessRunning := localStatus.running
    agentInRoom := agentInRoom
    pid := localStatus.pid
    status := localStatus.status
    error := localStatus.error
    uptime := localStatus.uptime }

/-! Concrete fixtures used by the closed (witness / counterexample)
theorems below. -/

/-- A record in status `running`. -/
def recRunning : AgentRecord :=
  { pid := 42, status := Status.running, error := none, startTime := 1000 }

/-- A record in status `starting`. -/
def recStarting : AgentRecord :=
  { pid := 42, status := Status.starting, error := none, startTime := 1000 }

/-- A record in status `error`. -/
def recError : AgentRecord :=
  { pid := 42, status := Status.error, error := some "boom", startTime := 1000 }

/-- A registry holding `recRunning` under room `study-1`. -/
def regRunning : Registry := Registry.set emptyRegistry "study-1" recRunning

/-- A registry holding `recStarting` under room `study-1`. -/
def regStarting : Registry := Registry.set emptyRegistry "study-1" recStarting

/-- A registry holding `recError` under room `study-1`. -/
def regError : Registry := Registry.set emptyRegistry "study-1" recError

/-- External outcomes of an untroubled launch. -/
def envBenign : StartEnv :=
  { setupError := none, spawnPid := some 7, now := 2000,
    errorEventMsg := none, exitBeforeGrace := false }

/-- External outcomes of a launch whose child fires the `error` event
(spawn-level failure) before the grace-period check. -/
def envSpawnError : StartEnv :=
  { setupError := none, spawnPid := some 7, now := 2000,
    errorEventMsg := some "spawn ENOENT", exitBeforeGrace := false }

/-! Helper lemmas about the registry embedding. -/

/-- Reading back the key just written. -/
theorem Registry.get_set_self (reg : Registry) (room : String) (rec : AgentRecord) :
    (reg.set room rec) room = some rec := by
  simp [Registry.set]

/-- Writing the same key twice keeps only the second write. -/
theorem Registry.set_set (reg : Registry) (room : String) (rec₁ rec₂ : AgentRecord) :
    (reg.set room rec₁).set room rec₂ = reg.set room rec₂ := by
  funext r
  by_cases h : r = room <;> simp [Registry.set, h]

/-- Reading an erased key. -/
theorem Registry.get_erase_self (reg : Registry) (room : String) :
    (reg.erase room) room = none := by
  simp [Registry.erase]

/-- `isAgentRunning` is false on a registry with no record for the room. -/
theorem isAgentRunning_of_none (reg : Registry) (room : String)
    (h : reg room = none) : isAgentRunning reg room = false := by
  simp [isAgentRunning, h]

/-- The source's participant loop returns exactly "some participant
satisfies `participantIsAgent`". -/
theorem scanParticipants_eq_any (ps : List Participant) :
    scanParticipants ps = ps.any participantIsAgent := by
  induction ps with
  | nil => rfl
  | cons p ps ih =>
      cases hm : p.metadata with
      | empty => by_cases hid : identityLooksLikeAgent p.identity = true <;>
          simp [scanParticipants, participantIsAgent, hm, hid, ih]
      | invalid => simp [scanParticipants, participantIsAgent, hm, ih]
      | parsed b =>
          cases b with
          | true => simp [scanParticipants, participantIsAgent, hm]
          | false => by_cases hid : identityLooksLikeAgent p.identity = true <;>
              simp [scanParticipants, participantIsAgent, hm, hid, ih]

/-! The claim theorems. -/

/-- Claim C7: for every room name, `isAgentRunning` returns true if and
only if a record exists in the registry for that room and its status is
not `error`. -/
theorem claim_isAgentRunning_iff (reg : Registry) (roomName : String) :
    isAgentRunning reg roomName = true ↔
      ∃ rec : AgentRecord, reg roomName = some rec ∧ rec.status ≠ Status.error := by
  cases h : reg roomName with
  | none => simp [isAgentRunning, h]
  | some rec => simp [isAgentRunning, h]

/-- Claim C10: for every room name and registry state (and query time),
the `running` field of `getAgentStatus` equals `isAgentRunning`: the two
public status queries never disagree. -/
theorem claim_getAgentStatus_running_agrees (reg : Registry) (roomName : String)
    (now : Int) :
    (getAgentStatus reg roomName now).running = isAgentRunning reg roomName := by
  cases h : reg roomName <;> simp [getAgentStatus, isAgentRunning, h]

/-- Claim C9: `getAgentStatus` reports `uptime` as the floor of
`(now − startedAt)` in seconds when a record exists and no uptime when
none does; for an existing record the reported uptime is non-negative
when the clock is at or past the start time, and non-decreasing in the
query time. -/
theorem claim_getAgentStatus_uptime (reg : Registry) (roomName : String)
    (rec : AgentRecord) (now now₁ now₂ : Int) :
    (reg roomName = none → (getAgentStatus reg roomName now).uptime = none) ∧
    (reg roomName = some rec →
      (getAgentStatus reg roomName now).uptime
          = some (msToSeconds (now - rec.startTime)) ∧
      (rec.startTime ≤ now →
        ∃ u, (getAgentStatus reg roomName now).uptime = some u ∧ 0 ≤ u) ∧
      (now₁ ≤ now₂ →
        ∃ u₁ u₂, (getAgentStatus reg roomName now₁).uptime = some u₁ ∧
          (getAgentStatus reg roomName now₂).uptime = some u₂ ∧ u₁ ≤ u₂)) := by
  refine ⟨fun h => by simp [getAgentStatus, h], fun h => ⟨by simp [getAgentStatus, h], ?_, ?_⟩⟩
  · intro hle
    refine ⟨msToSeconds (now - rec.startTime), by simp [getAgentStatus, h], ?_⟩
    exact Int.fdiv_nonneg (by omega) (by norm_num)
  · intro hle
    refine ⟨msToSeconds (now₁ - rec.startTime), msToSeconds (now₂ - rec.startTime),
      by simp [getAgentStatus, h], by simp [getAgentStatus, h], ?_⟩
    unfold msToSeconds
    rw [Int.fdiv_eq_ediv _ (by norm_num), Int.fdiv_eq_ediv _ (by norm_num)]
    exact Int.ediv_le_ediv (by norm_num) (by omega)

/-- Witness for C9 at a concrete registry, record and query times. -/
theorem claim_getAgentStatus_uptime_witness :
    (getAgentStatus regRunning "study-1" 5500).uptime
        = some (msToSeconds (5500 - recRunning.startTime)) ∧
    (∃ u, (getAgentStatus regRunning "study-1" 5500).uptime = some u ∧ 0 ≤ u) ∧
    (∃ u₁ u₂, (getAgentStatus regRunning "study-1" 5500).uptime = some u₁ ∧
      (getAgentStatus regRunning "study-1" 9000).uptime = some u₂ ∧ u₁ ≤ u₂) := by
  have h := (claim_getAgentStatus_uptime regRunning "study-1" recRunning
    5500 5500 9000).2 (by decide)
  exact ⟨h.1, h.2.1 (by decide), h.2.2 (by decide)⟩

/-- Claim C5: `stopAgent` returns false and leaves the registry unchanged
when no record exists; with a record present, successful signal delivery
removes the record immediately and returns true, while failed delivery
(returning false or throwing) leaves the registry untouched and returns
false. -/
theorem claim_stopAgent (reg : Registry) (roomName : String)
    (rec : AgentRecord) (kill : KillOutcome) :
    (reg roomName = none → stopAgent reg roomName kill = (false, reg)) ∧
    (reg roomName = some rec →
      stopAgent reg roomName KillOutcome.delivered = (true, reg.erase roomName) ∧
      (reg.erase roomName) roomName = none ∧
      stopAgent reg roomName KillOutcome.refused = (false, reg) ∧
      ∀ msg : String, stopAgent reg roomName (KillOutcome.threw msg) = (false, reg)) := by
  constructor
  · intro h
    simp [stopAgent, h]
  · intro h
    exact ⟨by simp [stopAgent, h], Registry.get_erase_self reg roomName,
      by simp [stopAgent, h], fun msg => by simp [stopAgent, h]⟩

/-- Witness for C5: a missing room, and a present room under the three
kill outcomes, at concrete inputs. -/
theorem claim_stopAgent_witness :
    stopAgent emptyRegistry "nonexistent" KillOutcome.delivered = (false, emptyRegistry) ∧
    stopAgent regRunning "study-1" KillOutcome.delivered
        = (true, regRunning.erase "study-1") ∧
    (regRunning.erase "study-1") "study-1" = none ∧
    stopAgent regRunning "study-1" KillOutcome.refused = (false, regRunning) ∧
    stopAgent regRunning "study-1" (KillOutcome.threw "EPERM") = (false, regRunning) := by
  have h₁ := (claim_stopAgent emptyRegistry "nonexistent" recRunning
    KillOutcome.delivered).1 (by decide)
  have h₂ := (claim_stopAgent regRunning "study-1" recRunning
    KillOutcome.delivered).2 (by decide)
  exact ⟨h₁, h₂.1, h₂.2.1, h₂.2.2.1, h₂.2.2.2 "EPERM"⟩

/-- Claim C4: after the post-spawn grace period, a still-present record
whose status is not `error` is promoted to `running`; an `error` record
is left untouched and never promoted.  Promotion happens exactly once:
applying the grace-period update again changes nothing. -/
theorem claim_gracePeriodUpdate (reg : Registry) (roomName : String)
    (rec : AgentRecord) :
    (reg roomName = none → gracePeriodUpdate reg roomName = reg) ∧
    (reg roomName = some rec →
      (rec.status ≠ Status.error →
        gracePeriodUpdate reg roomName
            = reg.set roomName { rec with status := Status.running } ∧
        (gracePeriodUpdate reg roomName) roomName
            = some { rec with status := Status.running }) ∧
      (rec.status = Status.error → gracePeriodUpdate reg roomName = reg)) ∧
    gracePeriodUpdate (gracePeriodUpdate reg roomName) roomName
        = gracePeriodUpdate reg roomName := by
  refine ⟨fun h => by simp [gracePeriodUpdate, h], fun h => ⟨fun hst => ?_, fun hst => ?_⟩, ?_⟩
  · have : gracePeriodUpdate reg roomName
        = reg.set roomName { rec with status := Status.running } := by
      simp [gracePeriodUpdate, h, bne_iff_ne, hst]
    exact ⟨this, by rw [this]; exact Registry.get_set_self ..⟩
  · simp [gracePeriodUpdate, h, hst]
  · cases h : reg roomName with
    | none => simp [gracePeriodUpdate, h]
    | some rec' =>
        by_cases hst : rec'.status = Status.error
        · simp [gracePeriodUpdate, h, hst]
        · have h1 : gracePeriodUpdate reg roomName
              = reg.set roomName { rec' with status := Status.running } := by
            simp [gracePeriodUpdate, h, bne_iff_ne, hst]
          rw [h1]
          have h2 : (reg.set roomName { rec' with status := Status.running }) roomName
              = some { rec' with status := Status.running } := Registry.get_set_self ..
          simp [gracePeriodUpdate, h2, Registry.set_set]

/-- Witness for C4: a concrete `starting` record is promoted to
`running`, a concrete `error` record is left as-is, and the update is
idempotent on the promoted registry. -/
theorem claim_gracePeriodUpdate_witness :
    (gracePeriodUpdate regStarting "study-1"
        = regStarting.set "study-1" { recStarting with status := Status.running } ∧
      (gracePeriodUpdate regStarting "study-1") "study-1"
        = some { recStarting with status := Status.running }) ∧
    gracePeriodUpdate regError "study-1" = regError ∧
    gracePeriodUpdate (gracePeriodUpdate regStarting "study-1") "study-1"
        = gracePeriodUpdate regStarting "study-1" := by
  refine ⟨((claim_gracePeriodUpdate regStarting "study-1" recStarting).2.1
      (by decide)).1 (by decide), ?_, ?_⟩
  · exact ((claim_gracePeriodUpdate regError "study-1" recError).2.1
      (by decide)).2 (by decide)
  · exact (claim_gracePeriodUpdate regStarting "study-1" recStarting).2.2

/-- Claim C2: when the registry already holds a record for the room with
status other than `error`, `startAgent` returns success with
`alreadyRunning = true`, spawns no process, writes no artifact, and
leaves the registry (in particular the room's record) unchanged. -/
theorem claim_startAgent_idempotent (reg : Registry) (roomName : String)
    (rec : AgentRecord) (env : StartEnv)
    (hrec : reg roomName = some rec) (hst : rec.status ≠ Status.error) :
    (startAgent reg roomName env).1.success = true ∧
    (startAgent reg roomName env).1.alreadyRunning = true ∧
    (startAgent reg roomName env).2.2.spawned = false ∧
    (startAgent reg roomName env).2.2.artifactWritten = false ∧
    (startAgent reg roomName env).2.1 = reg := by
  have hrun : isAgentRunning reg roomName = true := by
    simp [isAgentRunning, hrec, bne_iff_ne, hst]
  simp [startAgent, hrun]

/-- Witness for C2: a second start on a registry already holding a
`running` record for the room. -/
theorem claim_startAgent_idempotent_witness :
    (startAgent regRunning "study-1" envBenign).1.success = true ∧
    (startAgent regRunning "study-1" envBenign).1.alreadyRunning = true ∧
    (startAgent regRunning "study-1" envBenign).2.2.spawned = false ∧
    (startAgent regRunning "study-1" envBenign).2.2.artifactWritten = false ∧
    (startAgent regRunning "study-1" envBenign).2.1 = regRunning :=
  claim_startAgent_idempotent regRunning "study-1" recRunning envBenign
    (by decide) (by decide)

/-- Claim C3: the `exit` handler — for any exit code or signal —
unconditionally removes the room's record and closes both log streams;
afterwards `isAgentRunning` is false and a subsequent `startAgent` whose
setup does not throw proceeds as a fresh launch: not `alreadyRunning`, a
new process spawned, a new artifact written, and (when no failure event
interferes before the grace check) a fresh record carrying the new
launch's pid and start time. -/
theorem claim_exit_clean_slate (reg : Registry) (roomName : String)
    (code : Option Int) (signal : Option String) (env : StartEnv)
    (hsetup : env.setupError = none) :
    ((onExitEvent reg roomName code signal).1) roomName = none ∧
    (onExitEvent reg roomName code signal).2.logStreamEnded = true ∧
    (onExitEvent reg roomName code signal).2.errorLogStreamEnded = true ∧
    isAgentRunning ((onExitEvent reg roomName code signal).1) roomName = false ∧
    (startAgent ((onExitEvent reg roomName code signal).1) roomName env).1.success = true ∧
    (startAgent ((onExitEvent reg roomName code signal).1) roomName env).1.alreadyRunning
        = false ∧
    (startAgent ((onExitEvent reg roomName code signal).1) roomName env).2.2.spawned = true ∧
    (startAgent ((onExitEvent reg roomName code signal).1) roomName env).2.2.artifactWritten
        = true ∧
    (env.errorEventMsg = none → env.exitBeforeGrace = false →
      (startAgent ((onExitEvent reg roomName code signal).1) roomName env).2.1 roomName
          = some { pid := env.spawnPid.getD 0, status := Status.running,
                   error := none, startTime := env.now }) := by
  have hgone : ((onExitEvent reg roomName code signal).1) roomName = none :=
    Registry.get_erase_self reg roomName
  have hrun : isAgentRunning ((onExitEvent reg roomName code signal).1) roomName = false :=
    isAgentRunning_of_none _ _ hgone
  refine ⟨hgone, rfl, rfl, hrun, ?_⟩
  have hbody : ∀ P : StartResult × Registry × StartEffects → Prop,
      P (startAgent ((onExitEvent reg roomName code signal).1) roomName env) ↔
      P (let reg₁ := ((onExitEvent reg roomName code signal).1).set roomName
            { pid := env.spawnPid.getD 0, status := Status.starting,
              error := none, startTime := env.now }
         let reg₂ := match env.errorEventMsg with
           | some msg => onSpawnErrorEvent reg₁ roomName msg
           | none => reg₁
         let reg₃ := if env.exitBeforeGrace then (onExitEvent reg₂ roomName none none).1
           else reg₂
         let reg₄ := gracePeriodUpdate reg₃ roomName
         ({ success := true, error := none, pid := env.spawnPid, alreadyRunning := false },
          reg₄, { spawned := true, artifactWritten := true })) := by
    intro P
    rw [startAgent, hrun, hsetup]
    simp
  refine ⟨?_, ?_, ?_, ?_, ?_⟩
  · exact ((hbody fun out => out.1.success = true).2 rfl)
  · exact ((hbody fun out => out.1.alreadyRunning = false).2 rfl)
  · exact ((hbody fun out => out.2.2.spawned = true).2 rfl)
  · exact ((hbody fun out => out.2.2.artifactWritten = true).2 rfl)
  · intro herr hexit
    refine (hbody fun out => out.2.1 roomName
        = some { pid := env.spawnPid.getD 0, status := Status.running,
                 error := none, startTime := env.now }).2 ?_
    rw [herr]
    simp only [hexit, if_false]
    have hst : ((onExitEvent reg roomName code signal).1).set roomName
        { pid := env.spawnPid.getD 0, status := Status.starting,
          error := none, startTime := env.now } roomName
        = some { pid := env.spawnPid.getD 0, status := Status.starting,
                 error := none, startTime := env.now } := Registry.get_set_self ..
    simp [gracePeriodUpdate, hst, Registry.get_set_self, Registry.set_set]

/-- Witness for C3: exit of the concrete running record's process, then a
fresh start with benign outcomes. -/
theorem claim_exit_clean_slate_witness :
    ((onExitEvent regRunning "study-1" (some 0) none).1) "study-1" = none ∧
    (onExitEvent regRunning "study-1" (some 0) none).2.logStreamEnded = true ∧
    (onExitEvent regRunning "study-1" (some 0) none).2.errorLogStreamEnded = true ∧
    isAgentRunning ((onExitEvent regRunning "study-1" (some 0) none).1) "study-1" = false ∧
    (startAgent ((onExitEvent regRunning "study-1" (some 0) none).1) "study-1"
        envBenign).1.success = true ∧
    (startAgent ((onExitEvent regRunning "study-1" (some 0) none).1) "study-1"
        envBenign).1.alreadyRunning = false ∧
    (startAgent ((onExitEvent regRunning "study-1" (some 0) none).1) "study-1"
        envBenign).2.2.spawned = true ∧
    (startAgent ((onExitEvent regRunning "study-1" (some 0) none).1) "study-1"
        envBenign).2.2.artifactWritten = true ∧
    (startAgent ((onExitEvent regRunning "study-1" (some 0) none).1) "study-1"
        envBenign).2.1 "study-1"
      = some { pid := 7, status := Status.running, error := none, startTime := 2000 } := by
  have h := claim_exit_clean_slate regRunning "study-1" (some 0) none envBenign rfl
  exact ⟨h.1, h.2.1, h.2.2.1, h.2.2.2.1, h.2.2.2.2.1, h.2.2.2.2.2.1,
    h.2.2.2.2.2.2.1, h.2.2.2.2.2.2.2.1, h.2.2.2.2.2.2.2.2 rfl rfl⟩

/-- Counterexample to claim C6: a launch on an empty registry whose child
fires the spawn-level `error` event before the grace check.  The claim
says `startAgent` then "returns a failed result to the caller", but the
call returns `success = true` (with the pid) even though the room's
record was set to status `error` with the failure message. -/
theorem claim_spawn_error_counterexample :
    (startAgent emptyRegistry "study-1" envSpawnError).1.success = true ∧
    (startAgent emptyRegistry "study-1" envSpawnError).1
        ≠ { success := false, error := some "spawn ENOENT", pid := none,
            alreadyRunning := false } ∧
    (startAgent emptyRegistry "study-1" envSpawnError).2.1 "study-1"
        = some { pid := 7, status := Status.error, error := some "spawn ENOENT",
                 startTime := 2000 } := by
  refine ⟨by decide, by decide, by decide⟩

/-- Claim C6 as amended: a spawn-level error surfacing through the
child's `error` event sets the room's record to status `error` with the
failure message, the record is never promoted to `running` and the room
does not count as running — but `startAgent` still returns
`success = true` with the pid; a failed result (`success = false`) is
returned only when a setup step throws synchronously, in which case the
registry is left unchanged. -/
theorem claim_spawn_error_amended (reg : Registry) (roomName : String)
    (env : StartEnv) (msg : String)
    (hrun : isAgentRunning reg roomName = false)
    (hsetup : env.setupError = none)
    (herr : env.errorEventMsg = some msg)
    (hexit : env.exitBeforeGrace = false) :
    (startAgent reg roomName env).1.success = true ∧
    (startAgent reg roomName env).1.pid = env.spawnPid ∧
    (startAgent reg roomName env).2.1 roomName
        = some { pid := env.spawnPid.getD 0, status := Status.error,
                 error := some msg, startTime := env.now } ∧
    isAgentRunning ((startAgent reg roomName env).2.1) roomName = false ∧
    (∀ env' : StartEnv, ∀ msg' : String, env'.setupError = some msg' →
      startAgent reg roomName env'
          = ({ success := false, error := some msg', pid := none,
               alreadyRunning := false }, reg,
             { spawned := false, artifactWritten := false })) := by
  have hrecord : (startAgent reg roomName env).2.1 roomName
      = some { pid := env.spawnPid.getD 0, status := Status.error,
               error := some msg, startTime := env.now } := by
    rw [startAgent, hrun, hsetup]
    simp only [Bool.false_eq_true, if_false]
    rw [herr]
    simp only [hexit, if_false]
    have hst : (reg.set roomName
        { pid := env.spawnPid.getD 0, status := Status.starting,
          error := none, startTime := env.now }) roomName
        = some { pid := env.spawnPid.getD 0, status := Status.starting,
                 error := none, startTime := env.now } := Registry.get_set_self ..
    simp [onSpawnErrorEvent, hst, gracePeriodUpdate, Registry.get_set_self,
      Registry.set_set]
  refine ⟨?_, ?_, hrecord, ?_, ?_⟩
  · rw [startAgent, hrun, hsetup]
    simp
  · rw [startAgent, hrun, hsetup]
    simp
  · simp [isAgentRunning, hrecord]
  · intro env' msg' hsetup'
    rw [startAgent, hrun, hsetup']
    simp

/-- Witness for the amended C6 at concrete inputs: the error-event launch
and a synchronous setup failure. -/
theorem claim_spawn_error_amended_witness :
    (startAgent emptyRegistry "study-1" envSpawnError).1.success = true ∧
    (startAgent emptyRegistry "study-1" envSpawnError).1.pid = some 7 ∧
    (startAgent emptyRegistry "study-1" envSpawnError).2.1 "study-1"
        = some { pid := 7, status := Status.error, error := some "spawn ENOENT",
                 startTime := 2000 } ∧
    isAgentRunning ((startAgent emptyRegistry "study-1" envSpawnError).2.1) "study-1"
        = false ∧
    startAgent emptyRegistry "study-1"
        { setupError := some "EACCES", spawnPid := none, now := 2000,
          errorEventMsg := none, exitBeforeGrace := false }
      = ({ success := false, error := some "EACCES", pid := none,
           alreadyRunning := false }, emptyRegistry,
         { spawned := false, artifactWritten := false }) := by
  have h := claim_spawn_error_amended emptyRegistry "study-1" envSpawnError
    "spawn ENOENT" (by decide) rfl rfl rfl
  exact ⟨h.1, h.2.1, h.2.2.1, h.2.2.2.1, h.2.2.2.2
    { setupError := some "EACCES", spawnPid := none, now := 2000,
      errorEventMsg := none, exitBeforeGrace := false } "EACCES" rfl⟩

/-- Counterexample to claim C8: a participant whose metadata fails to
parse but whose identity matches the agent-naming heuristics.  The claim
("absent the flag, the identity heuristics apply") predicts true, but the
source's per-participant `catch` skips such a participant entirely and
the check returns false. -/
theorem claim_presence_scan_counterexample :
    checkAgentInRoom true
        (QueryOutcome.ok [{ identity := "agent-1", metadata := Metadata.invalid }])
      = false ∧
    claimScanParticipants [{ identity := "agent-1", metadata := Metadata.invalid }]
      = true := by
  refine ⟨by decide, by decide⟩

/-- Claim C8 as amended: the presence check returns false immediately
when the room is unknown to the external service; otherwise, over the
returned participants, it returns true exactly when some participant
either carries a truthy parsed agent flag or — its metadata being empty
or parsing without the flag — has an identity matching the naming
heuristics; participants whose metadata fails to parse are skipped
entirely, their identity never inspected. -/
theorem claim_presence_scan_amended (ps : List Participant)
    (query : QueryOutcome) :
    checkAgentInRoom false query = false ∧
    checkAgentInRoom true (QueryOutcome.ok ps) = ps.any participantIsAgent ∧
    checkAgentInRoom true (QueryOutcome.ok []) = false := by
  refine ⟨by simp [checkAgentInRoom], ?_, by decide⟩
  simp [checkAgentInRoom, scanParticipants_eq_any]

/-- Counterexample-style theorem for C1, evaluating the source's
query-failure path at failing inputs: with the room known and the
participant query failing, the result is `Math.random() > 0.7` — true
for a draw of 4/5, false for a draw of 1/2 — so it is not deterministic,
and on the low draw it is exactly the value of a genuine empty-room
observation, also as reported by `getFullAgentStatus`. -/
theorem claim_presence_failure_is_random :
    checkAgentInRoom true (QueryOutcome.failed (mkRat 4 5)) = true ∧
    checkAgentInRoom true (QueryOutcome.failed (mkRat 1 2)) = false ∧
    checkAgentInRoom true (QueryOutcome.failed (mkRat 1 2))
        = checkAgentInRoom true (QueryOutcome.ok []) ∧
    (getFullAgentStatus emptyRegistry "study-1" 0 true
        (QueryOutcome.failed (mkRat 1 2))).agentInRoom
      = (getFullAgentStatus emptyRegistry "study-1" 0 true
        (QueryOutcome.ok [])).agentInRoom := by
  refine ⟨by decide, by decide, by decide, by decide⟩

end AgentService
